import Mathlib

/-!
Verification of the Streamlit hybrid-search client
(`streamlit_app_chat_Zeyneb.py`) against its specification.

The program is a thin HTTP client: it builds JSON payloads, posts them to a
remote API (stubbed here by explicit outcome values), and renders the JSON
responses.  We embed the JSON data model, the two request helpers
(`search_api`, `search_organizations`), the per-tab render loops and the
form-submission guards as pure Lean functions, and prove the claimed
properties about them.
-/

/-- JSON-like values as handled by the Python code (dicts are association
lists; numbers are rationals, which covers every value the claims touch). -/
inductive JVal where
  | jnull : JVal
  | jbool : Bool → JVal
  | jnum : ℚ → JVal
  | jstr : String → JVal
  | jarr : List JVal → JVal
  | jobj : List (String × JVal) → JVal
deriving Repr

/-- Python truthiness (`if x:`): `None`, `False`, `0`, `""`, `[]`, `{}`
are falsy, everything else truthy. -/
def truthy : JVal → Bool
  | .jnull => false
  | .jbool b => b
  | .jnum q => decide (q ≠ 0)
  | .jstr s => decide (s ≠ "")
  | .jarr xs => !xs.isEmpty
  | .jobj fs => !fs.isEmpty

/-- `d.get(key, default)` on a dict receiver.  This is the total model
used where the receiver is a dict; Python's `.get` on a non-dict
receiver raises `AttributeError`, which `pyGetD` below models — the
render-loop theorems about arbitrary hit shapes go through that fallible
model, not this one. -/
def JVal.getD (v : JVal) (key : String) (d : JVal) : JVal :=
  match v with
  | .jobj fields =>
    match fields.lookup key with
    | some x => x
    | none => d
  | _ => d

/-- `key in d` for a dict value. -/
def JVal.hasKey (v : JVal) (key : String) : Bool :=
  match v with
  | .jobj fields => (fields.lookup key).isSome
  | _ => false

/-- Python `value == someString`: only a `str` with the same characters
compares equal to a string; values of other types never do. -/
def jeqStr (v : JVal) (s : String) : Bool :=
  match v with
  | .jstr t => decide (t = s)
  | _ => false

/-- Python `a or b`: `a` when truthy, else `b`. -/
def pyOr (a b : JVal) : JVal :=
  if truthy a then a else b

/-- Render a rational without a fractional part the way Python prints an
int.  Containers and proper fractions never appear in a displayed position
in any claim, so their exact Python `str()` text is abbreviated. -/
def pyStr : JVal → String
  | .jnull => "None"
  | .jbool b => if b then "True" else "False"
  | .jnum q => if q.den = 1 then toString q.num else toString q.num ++ "/" ++ toString q.den
  | .jstr s => s
  | .jarr _ => "<list>"
  | .jobj _ => "<dict>"

/-- `f"{x:.4f}"`: fixed-point with four decimal places.  Computed on the
exact rational as `round(|q| * 10000)` over `num`/`den` integer
arithmetic (rounding half up; the claims never evaluate it at a tie,
where Python's binary-float formatting could differ). -/
def fmt4 (q : ℚ) : String :=
  let sign := if q < 0 then "-" else ""
  let scaled : ℕ := (20000 * q.num.natAbs + q.den) / (2 * q.den)
  let ip := scaled / 10000
  let fp := scaled % 10000
  let fs := toString fp
  sign ++ toString ip ++ "." ++ String.mk (List.replicate (4 - fs.length) '0') ++ fs

/-- Messages the app pushes to the page (`st.info` / `st.warning` /
`st.error` / `st.success`). -/
inductive UIMessage where
  | info : String → UIMessage
  | warning : String → UIMessage
  | error : String → UIMessage
  | success : String → UIMessage
deriving Repr, DecidableEq

def UIMessage.isInfo : UIMessage → Bool
  | .info _ => true
  | _ => false

def UIMessage.isWarning : UIMessage → Bool
  | .warning _ => true
  | _ => false

/-- Outcome of the spelling-correction POST as seen by the `try` block:
either a response arrives (`requests.post` does not raise on a bad status;
`body = none` models `.json()` raising on an unparseable body, and a parsed
non-dict body makes the subsequent `.get` raise), or the call itself raises
(timeout, connection error, ...). -/
inductive SpellOutcome where
  | response : Nat → Option JVal → SpellOutcome
  | exn : String → SpellOutcome
deriving Repr

/-- Outcome of a main POST (`/search/{language}` or `/organizations`):
a response with status and parsed body, a `requests.exceptions.Timeout`,
or any other `requests.exceptions.RequestException`. -/
inductive HttpOutcome where
  | ok : Nat → JVal → HttpOutcome
  | timeout : String → HttpOutcome
  | reqError : String → HttpOutcome
deriving Repr

/-- The `use_spelling` block of `search_api` (lines 46-62): returns the
query actually submitted to search together with the messages shown.
A non-200 status falls through the `if` with no message at all; only a
raised exception reaches the `except` clause and its warning. -/
def resolve_spelling (query : String) (use_spelling : Bool) (o : SpellOutcome) :
    JVal × List UIMessage :=
  if use_spelling then
    match o with
    | .exn e => (.jstr query, [.warning ("Spelling correction unavailable: " ++ e)])
    | .response status body =>
      if status = 200 then
        match body with
        | some (.jobj fields) =>
          let corrected := (JVal.jobj fields).getD "corrected_query" (.jstr query)
          if jeqStr corrected query then
            (.jstr query, [])
          else
            (corrected, [.info ("✨ Using corrected query: `" ++ pyStr corrected ++ "`")])
        | some _ =>
          (.jstr query, [.warning "Spelling correction unavailable: AttributeError"])
        | none =>
          (.jstr query, [.warning "Spelling correction unavailable: JSONDecodeError"])
      else
        (.jstr query, [])
  else
    (.jstr query, [])

/-- `response.raise_for_status()` raises `HTTPError` for 4xx and 5xx. -/
def raisesForStatus (status : Nat) : Bool :=
  decide (400 ≤ status ∧ status < 600)

/-- Message text of the `HTTPError` raised by `raise_for_status`. -/
def httpErrorMsg (status : Nat) : String :=
  toString status ++ (if status < 500 then " Client Error" else " Server Error")

/-- The shared `try/except` around a main POST in `search_api`
(lines 71-85): distinct message for `Timeout`, generic message for every
other `RequestException` (including `HTTPError` from `raise_for_status`). -/
def handle_search_response (o : HttpOutcome) : Option JVal × List UIMessage :=
  match o with
  | .ok status body =>
    if raisesForStatus status then
      (none, [.error ("❌ Request failed: " ++ httpErrorMsg status)])
    else
      (some body, [])
  | .timeout _ => (none, [.error "⏱️ Request timed out. Please try again."])
  | .reqError e => (none, [.error ("❌ Request failed: " ++ e)])

/-- Everything observable about one `search_api` call: whether the spelling
endpoint was called, the endpoint path and payload of the main POST (which
is always issued), its returned value, and the messages shown. -/
structure SearchApiTrace where
  spellingCalled : Bool
  endpoint : String
  payload : JVal
  result : Option JVal
  messages : List UIMessage
deriving Repr

/-- `search_api(query, size, use_vector, alpha, language, use_spelling)`
(lines 37-85), with the two network calls stubbed by explicit outcomes. -/
def search_api (query : String) (size : ℕ) (use_vector : Bool) (alpha : ℚ)
    (language : String) (use_spelling : Bool)
    (spellOut : SpellOutcome) (searchOut : HttpOutcome) : SearchApiTrace :=
  { spellingCalled := use_spelling
    endpoint := "/search/" ++ language
    payload := .jobj
      [("query", (resolve_spelling query use_spelling spellOut).1), ("size", .jnum size),
       ("alpha", .jnum alpha), ("use_vector", .jbool use_vector)]
    result := (handle_search_response searchOut).1
    messages := (resolve_spelling query use_spelling spellOut).2
      ++ (handle_search_response searchOut).2 }

/-- Everything observable about one `search_organizations` call. -/
structure OrgApiTrace where
  endpoint : String
  payload : JVal
  result : Option JVal
  messages : List UIMessage
deriving Repr

/-- The `try/except` of `search_organizations` (lines 94-105): the single
`except requests.exceptions.RequestException` clause also catches
`Timeout` (its subclass), so a timeout gets the generic message. -/
def handle_org_response (o : HttpOutcome) : Option JVal × List UIMessage :=
  match o with
  | .ok status body =>
    if raisesForStatus status then
      (none, [UIMessage.error ("❌ Request failed: " ++ httpErrorMsg status)])
    else
      (some body, [])
  | .timeout e => (none, [UIMessage.error ("❌ Request failed: " ++ e)])
  | .reqError e => (none, [UIMessage.error ("❌ Request failed: " ++ e)])

/-- `search_organizations(search_term, size)` (lines 87-105), with the
network call stubbed by an explicit outcome. -/
def search_organizations (search_term : String) (size : ℕ)
    (o : HttpOutcome) : OrgApiTrace :=
  { endpoint := "/organizations"
    payload := .jobj
      [("search_term", .jstr search_term), ("index", .jstr "organizations_v3"),
       ("size", .jnum size)]
    result := (handle_org_response o).1
    messages := (handle_org_response o).2 }

/-- One expander block rendered for a product hit (tab 1/2/3 render loop,
lines 147-180 for the Azerbaijani tab).  Each field holds the markdown
text shown for it; `scoreLine` is absent exactly when the `if score:`
guard fails. -/
structure Block where
  title : String
  codeLine : String
  scoreLine : Option String
  d1Line : String
  d2Line : String
  d3Line : String
  d4Line : String
  pathLine : String
  tradingLines : List String
deriving Repr, DecidableEq

/-- The lines written for one trading entry (lines 170-178). -/
def renderTrading (t : JVal) : List String :=
  let trade_type := t.getD "tradeType" (.jstr "N/A")
  let trade_name := t.getD "tradeName" (.jstr "N/A")
  ["• " ++ pyStr trade_name ++ " (" ++ pyStr trade_type ++ ")"]
  ++ (if truthy (t.getD "inVehicleId" .jnull) then
        ["  In: Vehicle " ++ pyStr (t.getD "inVehicleId" .jnull)]
      else [])
  ++ (if truthy (t.getD "outVehicleId" .jnull) then
        ["  Out: Vehicle " ++ pyStr (t.getD "outVehicleId" .jnull)]
      else [])

/-- The trading column (lines 167-180): header plus per-entry lines when
`tradings` is truthy, a placeholder otherwise. -/
def renderTradings (tradings : JVal) : List String :=
  if truthy tradings then
    match tradings with
    | .jarr ts => "**Tradings:**" :: ts.flatMap renderTrading
    | _ => ["**Tradings:**"]
  else
    ["*No trading info*"]

/-- One iteration of the product render loop (lines 147-180), at 1-based
position `i` for language code `lang`: `source = hit.get('_source', hit)`,
the display-name fallback, and every markdown line of the block. -/
def renderHit (lang : String) (i : ℕ) (hit : JVal) : Block :=
  let source := hit.getD "_source" hit
  let name_display :=
    source.getD ("name_" ++ lang ++ "_d4") (source.getD "code" (.jstr "No Name"))
  let score := pyOr (hit.getD "_score" .jnull) (source.getD "score" .jnull)
  { title := "#" ++ toString i ++ " - " ++ pyStr name_display
    codeLine := "**Code:** `" ++ pyStr (source.getD "code" (.jstr "N/A")) ++ "`"
    scoreLine :=
      if truthy score then
        some ("**Score:** " ++ fmt4 (match score with | .jnum q => q | _ => 0))
      else none
    d1Line := "**Category (D1):** " ++ pyStr (source.getD ("name_" ++ lang ++ "_d1") (.jstr "N/A"))
    d2Line := "**Subcategory (D2):** " ++ pyStr (source.getD ("name_" ++ lang ++ "_d2") (.jstr "N/A"))
    d3Line := "**Sub-subcategory (D3):** " ++ pyStr (source.getD ("name_" ++ lang ++ "_d3") (.jstr "N/A"))
    d4Line := "**Product (D4):** " ++ pyStr (source.getD ("name_" ++ lang ++ "_d4") (.jstr "N/A"))
    pathLine := "**Full Path:** " ++ pyStr (source.getD "Path" (.jstr "-"))
    tradingLines := renderTradings (source.getD "tradings" (.jarr [])) }

/-- `for i, hit in enumerate(hits, start=1)`: one block per hit. -/
def renderHits (lang : String) (hits : List JVal) : List Block :=
  hits.mapIdx fun i h => renderHit lang (i + 1) h

/-- What a search tab pushes to the page after `search_api` returns. -/
structure TabOutput where
  messages : List UIMessage
  blocks : List Block
deriving Repr, DecidableEq

/-- The `if result:` section of a search tab (lines 140-180): success
banner read from `total-hits` with default 0, hits from `Ranked-objects`,
"No results found." when that list is falsy, else one block per hit.
`None` (and any falsy response value) renders nothing. -/
def renderSearchResult (lang : String) (result : Option JVal) : TabOutput :=
  match result with
  | none => { messages := [], blocks := [] }
  | some r =>
    if truthy r then
      let banner := UIMessage.success
        ("✅ Found " ++ pyStr (r.getD "total-hits" (.jnum 0)) ++ " hits")
      let hits := r.getD "Ranked-objects" (.jarr [])
      if truthy hits then
        match hits with
        | .jarr hs => { messages := [banner], blocks := renderHits lang hs }
        | _ => { messages := [banner], blocks := [] }
      else
        { messages := [banner, .info "No results found."], blocks := [] }
    else
      { messages := [], blocks := [] }

/-- One expander block rendered for an organization (lines 349-365). -/
structure OrgBlock where
  title : String
  nameLine : String
  abbrLine : String
  idLine : String
  scoreLine : Option String
  additionalInfoShown : Bool
deriving Repr, DecidableEq

/-- One iteration of the organization render loop (lines 349-365). -/
def renderOrg (i : ℕ) (org : JVal) : OrgBlock :=
  let score := org.getD "score" .jnull
  { title := "#" ++ toString i ++ " - " ++ pyStr (org.getD "name" (.jstr "N/A"))
    nameLine := "**Name:** " ++ pyStr (org.getD "name" (.jstr "N/A"))
    abbrLine := "**Abbreviation:** " ++ pyStr (org.getD "abbreviation" (.jstr "N/A"))
    idLine := "**ID:** " ++ pyStr (org.getD "id" (.jstr "N/A"))
    scoreLine :=
      if truthy score then
        some ("**Score:** " ++ fmt4 (match score with | .jnum q => q | _ => 0))
      else none
    additionalInfoShown := truthy (org.getD "additional_info" .jnull) }

/-- What the organization tab pushes to the page after
`search_organizations` returns. -/
structure OrgTabOutput where
  messages : List UIMessage
  blocks : List OrgBlock
deriving Repr, DecidableEq

/-- The `if result:` section of the organization tab (lines 342-365):
banner read from `total-hits` with default 0, results from `results`. -/
def renderOrgResult (result : Option JVal) : OrgTabOutput :=
  match result with
  | none => { messages := [], blocks := [] }
  | some r =>
    if truthy r then
      let banner := UIMessage.success
        ("✅ Found " ++ pyStr (r.getD "total-hits" (.jnum 0)) ++ " organizations")
      let orgs := r.getD "results" (.jarr [])
      if truthy orgs then
        match orgs with
        | .jarr os => { messages := [banner], blocks := os.mapIdx fun i o => renderOrg (i + 1) o }
        | _ => { messages := [banner], blocks := [] }
      else
        { messages := [banner, .info "No results found."], blocks := [] }
    else
      { messages := [], blocks := [] }

/-- `not s.strip()`: `strip` drops leading and trailing whitespace, so
the result is empty exactly when every character is whitespace. -/
def strip_is_empty (s : String) : Bool :=
  s.toList.all Char.isWhitespace

/-- A search-tab submission (lines 133-180; the three language tabs are
the same code with the language threaded through).  Returns the page
output together with the number of network calls issued: a blank query
(`not query.strip()`) short-circuits to a warning with zero calls,
otherwise the spelling call (when enabled) and the main call run. -/
def submit_search_tab (lang query : String) (size : ℕ) (use_vector : Bool)
    (alpha : ℚ) (use_spelling : Bool) (spellOut : SpellOutcome)
    (searchOut : HttpOutcome) : TabOutput × ℕ :=
  if strip_is_empty query then
    ({ messages := [.warning "⚠️ Please enter a query."], blocks := [] }, 0)
  else
    let trace := search_api query size use_vector alpha lang use_spelling spellOut searchOut
    let rendered := renderSearchResult lang trace.result
    ({ messages := trace.messages ++ rendered.messages, blocks := rendered.blocks },
     (if use_spelling then 1 else 0) + 1)

/-- An organization-tab submission (lines 335-365). -/
def submit_org_tab (search_term : String) (size : ℕ)
    (o : HttpOutcome) : OrgTabOutput × ℕ :=
  if strip_is_empty search_term then
    ({ messages := [.warning "⚠️ Please enter a search term."], blocks := [] }, 0)
  else
    let trace := search_organizations search_term size o
    let rendered := renderOrgResult trace.result
    ({ messages := trace.messages ++ rendered.messages, blocks := rendered.blocks }, 1)

/-- A spelling outcome on which no correction can be applied: the call
raised, the status was not 200, or the 200 body was not a parseable dict. -/
def spellFailed : SpellOutcome → Bool
  | .exn _ => true
  | .response status body =>
    if status = 200 then
      match body with
      | some (.jobj _) => false
      | _ => true
    else true

/-- A spelling outcome that reaches the `except` clause (and hence the
warning): the call raised, or a 200 response body made `.json()` or the
subsequent `.get` raise.  A non-200 response never raises. -/
def spellRaised : SpellOutcome → Bool
  | .exn _ => true
  | .response status body =>
    if status = 200 then
      match body with
      | some (.jobj _) => false
      | _ => true
    else false

/-- The display-name fallback policy as the specification words it:
the depth-4 name field for the active language; if absent, the record
code; if both are absent, the literal placeholder. -/
def spec_title_fallback (lang : String) (source : JVal) : String :=
  if source.hasKey ("name_" ++ lang ++ "_d4") then
    pyStr (source.getD ("name_" ++ lang ++ "_d4") .jnull)
  else if source.hasKey "code" then
    pyStr (source.getD "code" .jnull)
  else "No Name"

lemma getD_of_hasKey_false (v : JVal) (k : String) (d : JVal)
    (h : v.hasKey k = false) : v.getD k d = d := by
  cases v
  case jobj fields =>
    simp only [JVal.hasKey] at h
    cases hl : List.lookup k fields with
    | none => simp [JVal.getD, hl]
    | some x => rw [hl] at h; simp at h
  all_goals rfl

lemma getD_of_hasKey_true (v : JVal) (k : String) (d d' : JVal)
    (h : v.hasKey k = true) : v.getD k d = v.getD k d' := by
  cases v
  case jobj fields =>
    simp only [JVal.hasKey] at h
    cases hl : List.lookup k fields with
    | none => rw [hl] at h; simp at h
    | some x => simp [JVal.getD, hl]
  all_goals simp [JVal.hasKey] at h

lemma handle_search_response_no_info (o : HttpOutcome) :
    ((handle_search_response o).2.any UIMessage.isInfo) = false := by
  cases o
  · simp only [handle_search_response]
    split <;> simp [UIMessage.isInfo]
  · simp [handle_search_response, UIMessage.isInfo]
  · simp [handle_search_response, UIMessage.isInfo]

lemma handle_search_response_no_warning (o : HttpOutcome) :
    ((handle_search_response o).2.any UIMessage.isWarning) = false := by
  cases o
  · simp only [handle_search_response]
    split <;> simp [UIMessage.isWarning]
  · simp [handle_search_response, UIMessage.isWarning]
  · simp [handle_search_response, UIMessage.isWarning]

lemma resolve_spelling_of_failed (query : String) (o : SpellOutcome)
    (h : spellFailed o = true) :
    (resolve_spelling query true o).1 = .jstr query ∧
    ((resolve_spelling query true o).2.any UIMessage.isWarning = spellRaised o) := by
  cases o with
  | exn e => simp [resolve_spelling, spellRaised, UIMessage.isWarning]
  | response status body =>
    by_cases hs : status = 200
    · subst hs
      match body with
      | some (.jobj fields) => simp [spellFailed] at h
      | some (.jnull) | some (.jbool _) | some (.jnum _) | some (.jstr _) | some (.jarr _) =>
        simp [resolve_spelling, spellRaised, UIMessage.isWarning]
      | none => simp [resolve_spelling, spellRaised, UIMessage.isWarning]
    · simp [resolve_spelling, spellRaised, hs]

lemma length_renderHits (lang : String) (hits : List JVal) :
    (renderHits lang hits).length = hits.length := by
  simp [renderHits]

lemma handle_org_response_no_warning (o : HttpOutcome) :
    ((handle_org_response o).2.any UIMessage.isWarning) = false := by
  cases o
  · simp only [handle_org_response]
    split <;> simp [UIMessage.isWarning]
  · simp [handle_org_response, UIMessage.isWarning]
  · simp [handle_org_response, UIMessage.isWarning]

lemma pyStr_intCast (n : ℤ) : pyStr (.jnum (n : ℚ)) = toString n := by
  simp [pyStr, Rat.den_intCast, Rat.num_intCast]

lemma spec_title_fallback_eq (lang : String) (source : JVal) :
    pyStr (source.getD ("name_" ++ lang ++ "_d4") (source.getD "code" (.jstr "No Name")))
      = spec_title_fallback lang source := by
  unfold spec_title_fallback
  by_cases h4 : source.hasKey ("name_" ++ lang ++ "_d4") = true
  · rw [if_pos h4, getD_of_hasKey_true _ _ _ .jnull h4]
  · rw [if_neg (by simp [h4]),
      getD_of_hasKey_false _ _ _ (Bool.not_eq_true _ ▸ h4)]
    by_cases hc : source.hasKey "code" = true
    · rw [if_pos hc, getD_of_hasKey_true _ _ _ .jnull hc]
    · rw [if_neg (by simp [hc]),
        getD_of_hasKey_false _ _ _ (Bool.not_eq_true _ ▸ hc)]
      rfl

lemma renderSearchResult_head (lang : String) (hits : List JVal) :
    (renderSearchResult lang (some (.jobj [("Ranked-objects", .jarr hits)]))).messages.head?
      = some (.success "✅ Found 0 hits") := by
  cases hits <;> rfl

lemma renderSearchResult_blocks (lang : String) (hits : List JVal) :
    (renderSearchResult lang (some (.jobj [("Ranked-objects", .jarr hits)]))).blocks
      = renderHits lang hits := by
  cases hits
  · rfl
  · rfl

lemma renderOrgResult_head (orgs : List JVal) :
    (renderOrgResult (some (.jobj [("results", .jarr orgs)]))).messages.head?
      = some (.success "✅ Found 0 organizations") := by
  cases orgs <;> rfl

lemma renderOrgResult_blocks (orgs : List JVal) :
    (renderOrgResult (some (.jobj [("results", .jarr orgs)]))).blocks
      = orgs.mapIdx fun i o => renderOrg (i + 1) o := by
  cases orgs
  · rfl
  · rfl

/-- Claim C1, counterexample: with spelling correction enabled and the
spelling endpoint answering HTTP 500, the pipeline falls back to the raw
query and the main search still runs — but no warning (in fact no message
at all) is emitted for the spelling failure, contradicting the claim that
any failure emits a non-fatal warning. -/
theorem spelling_non200_silent_fallback :
    ((search_api "aluminium" 10 true 0 "az" true (.response 500 (some (.jobj [])))
        (.ok 200 (.jobj [("total-hits", .jnum 3)]))).messages.any UIMessage.isWarning
      = false) ∧
    (search_api "aluminium" 10 true 0 "az" true (.response 500 (some (.jobj [])))
        (.ok 200 (.jobj [("total-hits", .jnum 3)]))).messages = [] ∧
    (search_api "aluminium" 10 true 0 "az" true (.response 500 (some (.jobj [])))
        (.ok 200 (.jobj [("total-hits", .jnum 3)]))).payload.getD "query" .jnull
      = .jstr "aluminium" ∧
    (search_api "aluminium" 10 true 0 "az" true (.response 500 (some (.jobj [])))
        (.ok 200 (.jobj [("total-hits", .jnum 3)]))).result
      = some (.jobj [("total-hits", .jnum 3)]) :=
  ⟨rfl, rfl, rfl, rfl⟩

/-- Claim C1 (amended): on any spelling-correction failure the pipeline
falls back to the raw query unchanged and the main search call is still
issued and processed from its own outcome; a non-fatal warning is emitted
exactly when the spelling call raised (timeout, transport error,
unparseable body) — a non-200 response falls back silently without a
warning. -/
theorem spelling_failure_fallback (query : String) (size : ℕ) (use_vector : Bool)
    (alpha : ℚ) (language : String) (spellOut : SpellOutcome) (searchOut : HttpOutcome)
    (h : spellFailed spellOut = true) :
    (search_api query size use_vector alpha language true spellOut searchOut).payload.getD
        "query" .jnull = .jstr query ∧
    (search_api query size use_vector alpha language true spellOut searchOut).result
      = (handle_search_response searchOut).1 ∧
    ((search_api query size use_vector alpha language true spellOut searchOut).messages.any
        UIMessage.isWarning = spellRaised spellOut) := by
  obtain ⟨h1, h2⟩ := resolve_spelling_of_failed query spellOut h
  refine ⟨?_, rfl, ?_⟩
  · simp [search_api, h1, JVal.getD]
  · simp [search_api, List.any_append, h2, handle_search_response_no_warning]

/-- Claim C1, witness for the amended theorem at a concrete failing
outcome (a raised timeout): raw query kept, search processed, warning
emitted. -/
theorem spelling_failure_fallback_witness :
    spellFailed (.exn "timed out") = true ∧
    (search_api "q" 10 true 0 "az" true (.exn "timed out")
        (.ok 200 (.jobj []))).payload.getD "query" .jnull = .jstr "q" :=
  ⟨rfl, (spelling_failure_fallback "q" 10 true 0 "az" (.exn "timed out")
    (.ok 200 (.jobj [])) rfl).1⟩

/-- Claim C2, counterexample: a hit missing the depth-4 name but carrying
code "1234" is NOT titled "1234" — the rendered expander title carries the
1-based position marker, "#1 - 1234". -/
theorem title_code_fallback_prefixed :
    (renderHit "az" 1 (.jobj [("code", .jstr "1234")])).title ≠ "1234" ∧
    (renderHit "az" 1 (.jobj [("code", .jstr "1234")])).title = "#1 - 1234" ∧
    (renderHit "az" 1 (.jobj [])).title = "#1 - No Name" :=
  ⟨by decide, rfl, rfl⟩

/-- Claim C2 (amended): for every rendered product hit the block title is
"#i - " (its 1-based position) followed by exactly the claimed fallback
chain: the depth-4 name field for the active language; if absent, the
record's code; if both are absent, the literal "No Name". -/
theorem title_fallback_policy (lang : String) (i : ℕ) (hit : JVal) :
    (renderHit lang i hit).title =
      "#" ++ toString i ++ " - " ++ spec_title_fallback lang (hit.getD "_source" hit) := by
  simp only [renderHit]
  rw [spec_title_fallback_eq]

/-- Claim C3, counterexample: a hit whose score is present and equal to
0.0 (and with no fallback `score` field) renders NO score line — `if
score:` is Python truthiness, so 0.0 is treated like an absent score,
contradicting the claim that a present 0.0 score is shown. -/
theorem score_zero_omitted :
    (JVal.jobj [("_score", .jnum 0), ("code", .jstr "x")]).hasKey "_score" = true ∧
    (renderHit "az" 1 (.jobj [("_score", .jnum 0), ("code", .jstr "x")])).scoreLine = none :=
  ⟨rfl, rfl⟩

/-- Claim C3 (amended): the score line is rendered, formatted to four
decimal places, exactly when the resolved score — `hit.get('_score') or
source.get('score')` — is truthy: a nonzero numeric score is shown, while
an absent score or a score equal to 0.0 is omitted. -/
theorem score_line_truthiness (lang : String) (i : ℕ) (hit : JVal) :
    (∀ q : ℚ,
      pyOr (hit.getD "_score" .jnull) ((hit.getD "_source" hit).getD "score" .jnull)
          = .jnum q →
        (renderHit lang i hit).scoreLine
          = if q = 0 then none else some ("**Score:** " ++ fmt4 q)) ∧
    (pyOr (hit.getD "_score" .jnull) ((hit.getD "_source" hit).getD "score" .jnull)
        = .jnull →
      (renderHit lang i hit).scoreLine = none) := by
  constructor
  · intro q hq
    simp only [renderHit, hq]
    by_cases h0 : q = 0 <;> simp [h0, truthy]
  · intro hq
    simp [renderHit, hq, truthy]

/-- Claim C3, witness for the amended theorem: a nonzero score 1/2 is
rendered as "0.5000"; a present 0.0 score with no fallback is omitted. -/
theorem score_line_truthiness_witness :
    (renderHit "az" 1 (.jobj [("_score", .jnum (mkRat 1 2))])).scoreLine
      = some "**Score:** 0.5000" ∧
    (renderHit "az" 1 (.jobj [("_score", .jnum 0), ("code", .jstr "y")])).scoreLine
      = none := by
  constructor
  · have h := (score_line_truthiness "az" 1 (.jobj [("_score", .jnum (mkRat 1 2))])).1
      (mkRat 1 2) rfl
    rw [h, if_neg (by decide)]
    decide
  · exact (score_line_truthiness "az" 1
      (.jobj [("_score", .jnum 0), ("code", .jstr "y")])).2 rfl

/-- Claim C4, counterexample: a timed-out organization search renders the
generic request-failure message, not the distinct timeout message that
product search renders — `Timeout` is a subclass of `RequestException`
and `search_organizations` only has the generic handler. -/
theorem org_timeout_generic_message :
    (search_organizations "UN" 5 (.timeout "Read timed out")).messages
      = [.error "❌ Request failed: Read timed out"] ∧
    (search_organizations "UN" 5 (.timeout "Read timed out")).messages
      ≠ [.error "⏱️ Request timed out. Please try again."] :=
  ⟨rfl, by decide⟩

/-- Claim C4 (amended): the organization search error taxonomy differs
from product search on timeouts: its single `RequestException` handler
catches `Timeout` too, so a timeout yields the generic
"Request failed" message (and a `None` result), while `search_api` has a
distinct timeout branch with its own message. -/
theorem org_timeout_taxonomy (search_term : String) (size : ℕ) (e : String)
    (query : String) (s2 : ℕ) (uv : Bool) (alpha : ℚ) (lang : String) :
    (search_organizations search_term size (.timeout e)).messages
      = [.error ("❌ Request failed: " ++ e)] ∧
    (search_organizations search_term size (.timeout e)).result = none ∧
    (search_api query s2 uv alpha lang false (.exn "") (.timeout e)).messages
      = [.error "⏱️ Request timed out. Please try again."] :=
  ⟨rfl, rfl, rfl⟩

/-- Claim C5: for every valid request the search payload sent to
`/search/{language}` is exactly the four documented fields — the final
query, size, alpha, and the vector flag (wire key `use_vector`) — and the
organization payload is exactly the search term, the fixed index constant
"organizations_v3", and size (wire key `search_term`). -/
theorem payload_shape_exact (query : String) (size : ℕ) (use_vector : Bool)
    (alpha : ℚ) (language : String) (spellOut : SpellOutcome) (searchOut : HttpOutcome)
    (term : String) (osize : ℕ) (o : HttpOutcome)
    (h1 : 1 ≤ size) (h2 : size ≤ 50) (h3 : 0 ≤ alpha) (h4 : alpha ≤ 1) :
    (search_api query size use_vector alpha language false spellOut searchOut).payload
      = .jobj [("query", .jstr query), ("size", .jnum size), ("alpha", .jnum alpha),
               ("use_vector", .jbool use_vector)] ∧
    (search_api query size use_vector alpha language false spellOut searchOut).endpoint
      = "/search/" ++ language ∧
    (search_organizations term osize o).payload
      = .jobj [("search_term", .jstr term), ("index", .jstr "organizations_v3"),
               ("size", .jnum osize)] ∧
    (search_organizations term osize o).endpoint = "/organizations" :=
  ⟨rfl, rfl, rfl, rfl⟩

/-- Claim C5, witness at size 10 and alpha 1. -/
theorem payload_shape_exact_witness :
    (1 ≤ 10 ∧ 10 ≤ 50 ∧ (0:ℚ) ≤ 1 ∧ (1:ℚ) ≤ 1) ∧
    (search_api "q" 10 true 1 "az" false (.exn "") (.ok 200 (.jobj []))).payload
      = .jobj [("query", .jstr "q"), ("size", .jnum 10), ("alpha", .jnum 1),
               ("use_vector", .jbool true)] :=
  ⟨⟨by decide, by decide, by decide, by decide⟩,
   (payload_shape_exact "q" 10 true 1 "az" (.exn "") (.ok 200 (.jobj [])) "UN" 5
     (.ok 200 (.jobj [])) (by decide) (by decide) (by decide) (by decide)).1⟩

/-- Claim C6: a form submission whose query or search term is blank
(empty or whitespace only, `not s.strip()`) issues no network call — the
call count is 0 — and renders only the warning. -/
theorem empty_input_no_network_call (lang query : String) (size : ℕ) (uv : Bool)
    (alpha : ℚ) (sp : Bool) (spellOut : SpellOutcome) (searchOut : HttpOutcome)
    (term : String) (osize : ℕ) (o : HttpOutcome)
    (hq : strip_is_empty query = true) (ht : strip_is_empty term = true) :
    submit_search_tab lang query size uv alpha sp spellOut searchOut
      = ({ messages := [.warning "⚠️ Please enter a query."], blocks := [] }, 0) ∧
    submit_org_tab term osize o
      = ({ messages := [.warning "⚠️ Please enter a search term."], blocks := [] }, 0) := by
  constructor
  · simp [submit_search_tab, hq]
  · simp [submit_org_tab, ht]

/-- Claim C6, witness on a whitespace-only query and an empty search
term. -/
theorem empty_input_no_network_call_witness :
    strip_is_empty "   " = true ∧
    (submit_search_tab "az" "   " 10 true 1 false (.exn "") (.ok 200 (.jobj []))).2 = 0 := by
  refine ⟨by decide, ?_⟩
  rw [(empty_input_no_network_call "az" "   " 10 true 1 false (.exn "") (.ok 200 (.jobj []))
    "" 5 (.ok 200 (.jobj [])) (by decide) (by decide)).1]

/-- Claim C7: with spelling correction enabled and the endpoint answering
200 with a corrected query equal to the raw query (or no corrected-query
field at all), the final query submitted to search is the raw query
unchanged and no correction note (`st.info`) is shown. -/
theorem spelling_noop_unchanged (query : String) (size : ℕ) (uv : Bool) (alpha : ℚ)
    (lang : String) (fields : List (String × JVal)) (searchOut : HttpOutcome)
    (h : jeqStr ((JVal.jobj fields).getD "corrected_query" (.jstr query)) query = true) :
    (search_api query size uv alpha lang true (.response 200 (some (.jobj fields)))
        searchOut).payload.getD "query" .jnull = .jstr query ∧
    ((search_api query size uv alpha lang true (.response 200 (some (.jobj fields)))
        searchOut).messages.any UIMessage.isInfo = false) := by
  constructor
  · show (resolve_spelling query true (.response 200 (some (.jobj fields)))).1
      = .jstr query
    simp [resolve_spelling, h]
  · show ((resolve_spelling query true (.response 200 (some (.jobj fields)))).2
        ++ (handle_search_response searchOut).2).any UIMessage.isInfo = false
    simp [resolve_spelling, h, List.any_append, handle_search_response_no_info]

/-- Claim C7, witness: the stub answers "hs" for the raw query "hs". -/
theorem spelling_noop_unchanged_witness :
    jeqStr ((JVal.jobj [("corrected_query", .jstr "hs")]).getD "corrected_query"
      (.jstr "hs")) "hs" = true ∧
    (search_api "hs" 10 true 1 "az" true
        (.response 200 (some (.jobj [("corrected_query", .jstr "hs")])))
        (.ok 200 (.jobj []))).payload.getD "query" .jnull = .jstr "hs" :=
  ⟨rfl, (spelling_noop_unchanged "hs" 10 true 1 "az"
    [("corrected_query", .jstr "hs")] (.ok 200 (.jobj [])) rfl).1⟩

/-- Claim C8: the request-to-rendering pipeline is a pure function of the
form input and the stubbed API outcomes — issuing the same SearchRequest
twice against stubs returning identical responses yields identical page
output (same messages, same rendered blocks, same call count). -/
theorem pipeline_deterministic (lang query : String) (size : ℕ) (uv : Bool)
    (alpha : ℚ) (sp : Bool) (sp1 sp2 : SpellOutcome) (o1 o2 : HttpOutcome)
    (hs : sp1 = sp2) (ho : o1 = o2) :
    submit_search_tab lang query size uv alpha sp sp1 o1
      = submit_search_tab lang query size uv alpha sp sp2 o2 := by
  rw [hs, ho]

/-- Claim C8, witness at a concrete request and stubbed response. -/
theorem pipeline_deterministic_witness :
    submit_search_tab "az" "q" 10 true 1 false (.exn "")
        (.ok 200 (.jobj [("total-hits", .jnum 1)]))
      = submit_search_tab "az" "q" 10 true 1 false (.exn "")
        (.ok 200 (.jobj [("total-hits", .jnum 1)])) :=
  pipeline_deterministic "az" "q" 10 true 1 false _ _ _ _ rfl rfl

/-- Claim C10: the success-banner count is read solely from the
`total-hits` key, defaulting to 0 when absent, independently of the
rendered list: a response with hits but no `total-hits` banners
"Found 0 hits" (resp. "Found 0 organizations") while still rendering one
block per hit, and a response whose `total-hits` is n banners n whatever
the list contains. -/
theorem banner_count_from_total_hits (lang : String) (hits orgs : List JVal) (n : ℤ) :
    (renderSearchResult lang (some (.jobj [("Ranked-objects", .jarr hits)]))).messages.head?
      = some (.success "✅ Found 0 hits") ∧
    (renderSearchResult lang (some (.jobj [("Ranked-objects", .jarr hits)]))).blocks.length
      = hits.length ∧
    (renderOrgResult (some (.jobj [("results", .jarr orgs)]))).messages.head?
      = some (.success "✅ Found 0 organizations") ∧
    (renderOrgResult (some (.jobj [("results", .jarr orgs)]))).blocks.length
      = orgs.length ∧
    (renderSearchResult lang (some (.jobj [("total-hits", .jnum (n : ℚ)),
        ("Ranked-objects", .jarr [])]))).messages.head?
      = some (.success ("✅ Found " ++ toString n ++ " hits")) := by
  refine ⟨renderSearchResult_head lang hits, ?_, renderOrgResult_head orgs, ?_, ?_⟩
  · rw [renderSearchResult_blocks, length_renderHits]
  · rw [renderOrgResult_blocks]
    simp
  · rw [show (renderSearchResult lang (some (.jobj [("total-hits", .jnum (n : ℚ)),
        ("Ranked-objects", .jarr [])]))).messages.head?
      = some (.success ("✅ Found " ++ pyStr (.jnum (n : ℚ)) ++ " hits")) from rfl,
      pyStr_intCast]
